import Mathlib

/-!
Shallow embedding of the piano-chord-training statistics backend
(`main.go`): the data model, the HTTP request/response shapes, the four
routed endpoints, the `Authorize` middleware, and the day-bucketed
aggregation with gap fill over the trailing 32-day window.

External effects (Mongo insert/find/aggregate, cursor decoding, JSON
marshalling) are modelled by explicit outcome flags; the Mongo `$group`
on the day string of `created_at` is modelled by `groupByDay`; wall-clock
time enters as an explicit day number, with `fmtDay` embedding the
`2006-01-02` date formatting via the standard civil-from-days conversion.
-/

/-- `StatsRaw` from `main.go`: one statistics record. `createdAt` models
`time.Time` as Unix seconds. -/
structure StatsRaw where
  chordName : String
  rootNote : String
  chordExtension : String
  answerDurationMilliSeconds : Int
  createdAt : Int
  deriving DecidableEq, Repr

/-- Unix seconds of the zero `time.Time` (0001-01-01T00:00:00Z). -/
def goZeroTimeUnix : Int := -62135596800

/-- The zero-valued `StatsRaw`, as produced by `var stats StatsRaw` when the
JSON decode fails and leaves the record untouched. -/
def zeroStatsRaw : StatsRaw :=
  { chordName := "", rootNote := "", chordExtension := "",
    answerDurationMilliSeconds := 0, createdAt := goZeroTimeUnix }

/-- `StatsCountByDay` from `main.go`: one aggregation bucket. -/
structure StatsCountByDay where
  day : String
  count : Int
  deriving DecidableEq, Repr

/-- Civil date (year, month, day) of a day count since 1970-01-01,
by the standard era-based conversion. -/
def civilFromDays (z : Int) : Int × Nat × Nat :=
  let days := z + 719468
  let era : Int := Int.fdiv days 146097
  let doe : Nat := (days - era * 146097).toNat
  let yoe : Nat := (doe - doe / 1460 + doe / 36524 - doe / 146096) / 365
  let y : Int := (yoe : Int) + era * 400
  let doy : Nat := doe - (365 * yoe + yoe / 4 - yoe / 100)
  let mp : Nat := (5 * doy + 2) / 153
  let d : Nat := doy - (153 * mp + 2) / 5 + 1
  let m : Nat := if mp < 10 then mp + 3 else mp - 9
  (if m ≤ 2 then y + 1 else y, m, d)

/-- Two-digit zero padding for months and days. -/
def pad2 (n : Nat) : String :=
  if n < 10 then "0" ++ toString n else toString n

/-- Year component of the `2006-01-02` format: zero-padded to four digits. -/
def padYear (y : Int) : String :=
  if y < 0 then "-" ++ toString (-y).toNat
  else
    let s := toString y.toNat
    if 4 ≤ s.length then s else String.mk (List.replicate (4 - s.length) '0') ++ s

/-- `YYYY-MM-DD` string of a day number: the `2006-01-02` / `%Y-%m-%d`
date formatting. -/
def fmtDay (z : Int) : String :=
  let c := civilFromDays z
  padYear c.1 ++ "-" ++ pad2 c.2.1 ++ "-" ++ pad2 c.2.2

/-- Day string assigned to a record by Mongo's
`$dateToString {format: %Y-%m-%d, date: $created_at}`: the UTC calendar
day of its `created_at` timestamp. -/
def storeDayString (r : StatsRaw) : String :=
  fmtDay (Int.fdiv r.createdAt 86400)

/-- Model of the `$group` aggregation pipeline: one `(day, count)` bucket per
distinct day string occurring in the store, counting the records that fall
on that day. -/
def groupByDay (store : List StatsRaw) : List StatsCountByDay :=
  ((store.map storeDayString).dedup).map (fun d =>
    { day := d, count := ((store.filter (fun r => storeDayString r == d)).length : Int) })

/-- Response body: empty, a JSON array of raw records, or a JSON array of
daily counts. -/
inductive Body where
  | empty : Body
  | rawList : List StatsRaw → Body
  | countList : List StatsCountByDay → Body
  deriving DecidableEq, Repr

/-- HTTP response: status code and body. -/
structure Response where
  status : Nat
  body : Body
  deriving DecidableEq, Repr

/-- HTTP request: method, path, header map (each key mapped to its list of
values, as in Go's `http.Header`), and the result of JSON-decoding the body
into a `StatsRaw` (`none` models a decode failure). -/
structure Request where
  method : String
  path : String
  headers : List (String × List String)
  body : Option StatsRaw
  deriving DecidableEq, Repr

/-- `r.Header[key]`: the value list stored under a header key, `[]` when the
key is absent. -/
def headerGet (hs : List (String × List String)) (k : String) : List String :=
  match hs.find? (fun p => p.fst == k) with
  | some p => p.snd
  | none => []

/-- The token extracted by `Authorize`: the first `X-Auth-Token` value, or
the empty string when the header is absent. -/
def requestToken (req : Request) : String :=
  match headerGet req.headers "X-Auth-Token" with
  | [] => ""
  | t :: _ => t

/-- Outcomes of the external effects a request may perform: the Mongo
insert, the raw find / cursor decode / marshal, and the aggregate /
cursor decode / marshal. `true` means the step succeeds. -/
structure StoreOracle where
  insertOk : Bool
  findOk : Bool
  rawDecodeOk : Bool
  rawMarshalOk : Bool
  aggregateOk : Bool
  aggDecodeOk : Bool
  aggMarshalOk : Bool
  deriving DecidableEq, Repr

/-- The oracle in which every external step succeeds. -/
def allOk : StoreOracle :=
  { insertOk := true, findOk := true, rawDecodeOk := true, rawMarshalOk := true,
    aggregateOk := true, aggDecodeOk := true, aggMarshalOk := true }

/-- `addStatsHandler`: decode the body (ignoring failure, which leaves the
zero-valued record), insert the record; 200 on success, 500 if the store
rejects the write. Returns the response and the new store contents. -/
def addStatsHandler (store : List StatsRaw) (decoded : Option StatsRaw)
    (insertOk : Bool) : Response × List StatsRaw :=
  let stats := decoded.getD zeroStatsRaw
  if insertOk then ({ status := 200, body := Body.empty }, store ++ [stats])
  else ({ status := 500, body := Body.empty }, store)

/-- `getStatsRawHandler`: find all records, decode the cursor, marshal; any
failure yields 500 with empty body, success yields 200 with the full list. -/
def getStatsRawHandler (store : List StatsRaw) (o : StoreOracle) :
    Response × List StatsRaw :=
  if !o.findOk then ({ status := 500, body := Body.empty }, store)
  else if !o.rawDecodeOk then ({ status := 500, body := Body.empty }, store)
  else if !o.rawMarshalOk then ({ status := 500, body := Body.empty }, store)
  else ({ status := 200, body := Body.rawList store }, store)

/-- Lookup in the `countsMap` built by inserting each aggregation bucket in
list order under its day key: the last bucket with the given day wins, `none`
when no bucket has it. -/
def countsMapLookup (l : List StatsCountByDay) (k : String) :
    Option StatsCountByDay :=
  l.foldl (fun acc c => if c.day == k then some c else acc) none

/-- The gap-fill loop of `getCountByDayHandler`: for `i` from 31 down to 0,
append the bucket for day `now - i` when the map has it, else a zero-count
entry for that day. Element `j` of the result corresponds to `i = 31 - j`. -/
def windowEntries (counts : List StatsCountByDay) (nowDays : Int) :
    List StatsCountByDay :=
  (List.range 32).map (fun (j : Nat) =>
    let targetDayStr := fmtDay (nowDays - (31 - (j : Int)))
    match countsMapLookup counts targetDayStr with
    | some c => c
    | none => { day := targetDayStr, count := 0 })

/-- `getCountByDayHandler`: run the grouping aggregation, decode the cursor,
gap-fill the trailing 32-day window ending at the current day, marshal; any
failing step yields 500 with empty body. -/
def getCountByDayHandler (counts : List StatsCountByDay) (o : StoreOracle)
    (nowDays : Int) : Response :=
  if !o.aggregateOk then { status := 500, body := Body.empty }
  else if !o.aggDecodeOk then { status := 500, body := Body.empty }
  else if !o.aggMarshalOk then { status := 500, body := Body.empty }
  else { status := 200, body := Body.countList (windowEntries counts nowDays) }

/-- The router of `main`: the `Authorize` middleware runs first on every
route (it is installed with `r.Use` on the whole router), then the request
is dispatched to `/ping`, `POST /stats`, `GET /stats/raw`, or
`GET /stats/count_by_day`; unmatched requests get chi's not-found response.
Returns the response and the store contents after the request. -/
def serve (secret : String) (store : List StatsRaw) (o : StoreOracle)
    (nowDays : Int) (req : Request) : Response × List StatsRaw :=
  if requestToken req != secret then
    ({ status := 401, body := Body.empty }, store)
  else if req.method == "GET" && req.path == "/ping" then
    ({ status := 200, body := Body.empty }, store)
  else if req.method == "POST" && req.path == "/stats" then
    addStatsHandler store req.body o.insertOk
  else if req.method == "GET" && req.path == "/stats/raw" then
    getStatsRawHandler store o
  else if req.method == "GET" && req.path == "/stats/count_by_day" then
    (getCountByDayHandler (groupByDay store) o nowDays, store)
  else
    ({ status := 404, body := Body.empty }, store)

/-! ### Lemmas about the counts map -/

theorem countsMapLookup_foldl (k : String) (l : List StatsCountByDay) :
    ∀ acc : Option StatsCountByDay,
      l.foldl (fun a c => if c.day == k then some c else a) acc =
        (countsMapLookup l k <|> acc) := by
  induction l with
  | nil => intro acc; simp [countsMapLookup]
  | cons x rest ih =>
    intro acc
    rw [List.foldl_cons, ih]
    have hcons : countsMapLookup (x :: rest) k =
        (countsMapLookup rest k <|> (if x.day == k then some x else none)) := by
      show List.foldl _ none (x :: rest) = _
      rw [List.foldl_cons, ih]
    rw [hcons]
    cases hr : countsMapLookup rest k with
    | some c => simp
    | none =>
      by_cases hx : (x.day == k) = true
      · simp [hx]
      · simp [hx]

theorem countsMapLookup_cons (x : StatsCountByDay) (l : List StatsCountByDay)
    (k : String) :
    countsMapLookup (x :: l) k =
      (countsMapLookup l k <|> (if x.day == k then some x else none)) := by
  rw [countsMapLookup, List.foldl_cons]
  rw [countsMapLookup_foldl]

theorem countsMapLookup_day (k : String) (c : StatsCountByDay) :
    ∀ l : List StatsCountByDay, countsMapLookup l k = some c → c.day = k := by
  intro l
  induction l with
  | nil => intro h; simp [countsMapLookup] at h
  | cons x rest ih =>
    intro h
    rw [countsMapLookup_cons] at h
    cases hr : countsMapLookup rest k with
    | some d =>
      rw [hr] at h
      simp at h
      subst h
      exact ih hr
    | none =>
      rw [hr] at h
      by_cases hx : x.day == k
      · simp [hx] at h
        subst h
        exact eq_of_beq hx
      · simp [hx] at h

theorem countsMapLookup_eq_none (k : String) (l : List StatsCountByDay)
    (h : ∀ c ∈ l, c.day ≠ k) : countsMapLookup l k = none := by
  induction l with
  | nil => simp [countsMapLookup]
  | cons x rest ih =>
    rw [countsMapLookup_cons]
    rw [ih (fun c hc => h c (List.mem_cons_of_mem x hc))]
    have hx : (x.day == k) = false := beq_eq_false_iff_ne.mpr (h x (List.mem_cons_self x rest))
    simp [hx]

theorem countsMapLookup_of_mem (k : String) (c : StatsCountByDay)
    (l : List StatsCountByDay) (hnd : (l.map (fun e => e.day)).Nodup)
    (hc : c ∈ l) (hk : c.day = k) : countsMapLookup l k = some c := by
  induction l with
  | nil => exact absurd hc (List.not_mem_nil c)
  | cons x rest ih =>
    rw [List.map_cons, List.nodup_cons] at hnd
    rw [countsMapLookup_cons]
    rcases List.mem_cons.mp hc with hcx | hcr
    · subst hcx
      have hnone : countsMapLookup rest k = none := by
        refine countsMapLookup_eq_none k rest (fun e he hek => ?_)
        exact hnd.1 (hk ▸ hek ▸ List.mem_map_of_mem (fun e => e.day) he)
      rw [hnone]
      simp [beq_iff_eq.mpr hk]
    · rw [ih hnd.2 hcr]
      simp

/-! ### Lemmas about the gap-fill window -/

theorem windowEntries_length (counts : List StatsCountByDay) (now : Int) :
    (windowEntries counts now).length = 32 := by
  rw [windowEntries, List.length_map, List.length_range]

theorem windowEntries_getElem (counts : List StatsCountByDay) (now : Int)
    (j : Nat) (h : j < 32) :
    (windowEntries counts now)[j]? =
      some (match countsMapLookup counts (fmtDay (now - (31 - (j : Int)))) with
        | some c => c
        | none => { day := fmtDay (now - (31 - (j : Int))), count := 0 }) := by
  rw [windowEntries, List.getElem?_map, List.getElem?_range h]
  rfl

/-! ### Lemmas about routing -/

theorem serve_of_token_ne (secret : String) (st : List StatsRaw) (o : StoreOracle)
    (now : Int) (req : Request) (h : requestToken req ≠ secret) :
    serve secret st o now req = ({ status := 401, body := Body.empty }, st) := by
  unfold serve
  rw [if_pos (bne_iff_ne.mpr h)]

theorem serve_ping (secret : String) (st : List StatsRaw) (o : StoreOracle)
    (now : Int) (hs : List (String × List String)) (b : Option StatsRaw)
    (h : requestToken { method := "GET", path := "/ping", headers := hs, body := b } = secret) :
    serve secret st o now { method := "GET", path := "/ping", headers := hs, body := b } =
      ({ status := 200, body := Body.empty }, st) := by
  unfold serve
  rw [if_neg (by simp [bne_iff_ne, h])]
  rfl

theorem serve_post_stats (secret : String) (st : List StatsRaw) (o : StoreOracle)
    (now : Int) (hs : List (String × List String)) (b : Option StatsRaw)
    (h : requestToken { method := "POST", path := "/stats", headers := hs, body := b } = secret) :
    serve secret st o now { method := "POST", path := "/stats", headers := hs, body := b } =
      addStatsHandler st b o.insertOk := by
  unfold serve
  rw [if_neg (by simp [bne_iff_ne, h])]
  rfl

theorem serve_stats_raw (secret : String) (st : List StatsRaw) (o : StoreOracle)
    (now : Int) (hs : List (String × List String)) (b : Option StatsRaw)
    (h : requestToken { method := "GET", path := "/stats/raw", headers := hs, body := b } = secret) :
    serve secret st o now { method := "GET", path := "/stats/raw", headers := hs, body := b } =
      getStatsRawHandler st o := by
  unfold serve
  rw [if_neg (by simp [bne_iff_ne, h])]
  rfl

theorem serve_count_by_day (secret : String) (st : List StatsRaw) (o : StoreOracle)
    (now : Int) (hs : List (String × List String)) (b : Option StatsRaw)
    (h : requestToken { method := "GET", path := "/stats/count_by_day", headers := hs, body := b } = secret) :
    serve secret st o now { method := "GET", path := "/stats/count_by_day", headers := hs, body := b } =
      (getCountByDayHandler (groupByDay st) o now, st) := by
  unfold serve
  rw [if_neg (by simp [bne_iff_ne, h])]
  rfl

theorem serve_status_ne_401_of_token_eq (secret : String) (st : List StatsRaw)
    (o : StoreOracle) (now : Int) (req : Request)
    (h : requestToken req = secret) :
    (serve secret st o now req).fst.status ≠ 401 := by
  unfold serve addStatsHandler getStatsRawHandler getCountByDayHandler
  rw [if_neg (by simp [bne_iff_ne, h])]
  repeat' split
  all_goals simp

theorem serve_snd_of_not_post (secret : String) (st : List StatsRaw)
    (o : StoreOracle) (now : Int) (req : Request)
    (h : ¬(req.method = "POST" ∧ req.path = "/stats")) :
    (serve secret st o now req).snd = st := by
  unfold serve addStatsHandler getStatsRawHandler getCountByDayHandler
  repeat' split
  all_goals simp_all

example : fmtDay 19728 = "2024-01-06" := by rfl
example : fmtDay 0 = "1970-01-01" := by rfl
example : fmtDay (-1) = "1969-12-31" := by rfl
example : fmtDay 19723 = "2024-01-01" := by rfl
example : storeDayString { zeroStatsRaw with createdAt := 1704448800 } = "2024-01-05" := by rfl
example :
    (serve "s" [] allOk 0 { method := "GET", path := "/ping", headers := [], body := none }).fst.status = 401 := by
  rfl
example :
    (serve "s" [] allOk 0
      { method := "GET", path := "/ping",
        headers := [("X-Auth-Token", ["s"])], body := none }).fst.status = 200 := by
  rfl

/-! ### Claims -/

/-- C1 counterexample: a `GET /ping` request with no `X-Auth-Token` header
gets status 401, not 200 — `Authorize` is installed with `r.Use` on the whole
router, so `/ping` is not auth-exempt. -/
theorem C1_counterexample :
    (serve "secret" [] allOk 0
        { method := "GET", path := "/ping", headers := [], body := none }).fst.status = 401 ∧
      (serve "secret" [] allOk 0
        { method := "GET", path := "/ping", headers := [], body := none }).fst.status ≠ 200 := by
  constructor
  · rfl
  · decide

/-- C1 (amended): `GET /ping` returns 200 exactly when the request passes the
`Authorize` token check, and 401 otherwise — the middleware applies to
`/ping` like to every other route. -/
theorem C1_ping_behind_auth (secret : String) (st : List StatsRaw)
    (o : StoreOracle) (now : Int) (hs : List (String × List String))
    (b : Option StatsRaw) :
    (serve secret st o now { method := "GET", path := "/ping", headers := hs, body := b }).fst =
      (if requestToken { method := "GET", path := "/ping", headers := hs, body := b } == secret
        then { status := 200, body := Body.empty }
        else { status := 401, body := Body.empty }) := by
  by_cases h : requestToken { method := "GET", path := "/ping", headers := hs, body := b } = secret
  · rw [serve_ping secret st o now hs b h]
    simp [h]
  · rw [serve_of_token_ne secret st o now _ h]
    simp [h]

/-- C2: every successful `GET /stats/count_by_day` response is a list of
exactly 32 entries whose `day` strings are the consecutive calendar dates
from today minus 31 days up to today: entry `j` (0-based, oldest first)
carries the date `today - (31 - j)` days. -/
theorem C2_count_by_day_window (secret : String) (st : List StatsRaw)
    (o : StoreOracle) (now : Int) (hs : List (String × List String))
    (b : Option StatsRaw)
    (hauth : requestToken { method := "GET", path := "/stats/count_by_day", headers := hs, body := b } = secret)
    (hagg : o.aggregateOk = true) (hdec : o.aggDecodeOk = true)
    (hmar : o.aggMarshalOk = true) :
    ∃ l : List StatsCountByDay,
      serve secret st o now
          { method := "GET", path := "/stats/count_by_day", headers := hs, body := b } =
        ({ status := 200, body := Body.countList l }, st) ∧
      l.length = 32 ∧
      ∀ j : Nat, j < 32 →
        ∃ e : StatsCountByDay, l[j]? = some e ∧ e.day = fmtDay (now - (31 - (j : Int))) := by
  refine ⟨windowEntries (groupByDay st) now, ?_, windowEntries_length _ _, ?_⟩
  · rw [serve_count_by_day secret st o now hs b hauth]
    unfold getCountByDayHandler
    rw [hagg, hdec, hmar]
    rfl
  · intro j hj
    rw [windowEntries_getElem (groupByDay st) now j hj]
    cases hl : countsMapLookup (groupByDay st) (fmtDay (now - (31 - (j : Int)))) with
    | some c =>
      exact ⟨c, rfl, countsMapLookup_day _ c _ hl⟩
    | none =>
      exact ⟨{ day := fmtDay (now - (31 - (j : Int))), count := 0 }, rfl, rfl⟩

/-- C2 witness: concrete successful request on the empty store at day 0. -/
theorem C2_witness :
    ∃ l : List StatsCountByDay,
      serve "s" [] allOk 0
          { method := "GET", path := "/stats/count_by_day",
            headers := [("X-Auth-Token", ["s"])], body := none } =
        ({ status := 200, body := Body.countList l }, []) ∧
      l.length = 32 ∧
      ∀ j : Nat, j < 32 →
        ∃ e : StatsCountByDay, l[j]? = some e ∧ e.day = fmtDay (0 - (31 - (j : Int))) :=
  C2_count_by_day_window "s" [] allOk 0 [("X-Auth-Token", ["s"])] none rfl rfl rfl rfl

/-- C3: for every decoded grouping result (with pairwise distinct day keys,
as `$group` produces) and every position `j` of the 32-day trailing window,
the gap-fill emits the grouped bucket for that day when one exists and a
zero-count entry otherwise; the window has all 32 days. -/
theorem C3_gap_fill (counts : List StatsCountByDay) (now : Int) (j : Nat)
    (hnd : (counts.map (fun c => c.day)).Nodup) (hj : j < 32) :
    (windowEntries counts now).length = 32 ∧
    (∀ c ∈ counts, c.day = fmtDay (now - (31 - (j : Int))) →
      (windowEntries counts now)[j]? = some c) ∧
    ((∀ c ∈ counts, c.day ≠ fmtDay (now - (31 - (j : Int)))) →
      (windowEntries counts now)[j]? =
        some { day := fmtDay (now - (31 - (j : Int))), count := 0 }) := by
  refine ⟨windowEntries_length _ _, ?_, ?_⟩
  · intro c hc hck
    rw [windowEntries_getElem counts now j hj,
      countsMapLookup_of_mem _ c counts hnd hc hck]
  · intro hnone
    rw [windowEntries_getElem counts now j hj,
      countsMapLookup_eq_none _ counts hnone]

/-- C3 witness: one bucket for 1970-01-01 at window position 31, day 0. -/
theorem C3_witness :
    (windowEntries [{ day := "1970-01-01", count := 3 }] 0).length = 32 ∧
    (∀ c ∈ [({ day := "1970-01-01", count := 3 } : StatsCountByDay)],
      c.day = fmtDay (0 - (31 - ((31 : Nat) : Int))) →
      (windowEntries [{ day := "1970-01-01", count := 3 }] 0)[31]? = some c) ∧
    ((∀ c ∈ [({ day := "1970-01-01", count := 3 } : StatsCountByDay)],
      c.day ≠ fmtDay (0 - (31 - ((31 : Nat) : Int)))) →
      (windowEntries [{ day := "1970-01-01", count := 3 }] 0)[31]? =
        some { day := fmtDay (0 - (31 - ((31 : Nat) : Int))), count := 0 }) :=
  C3_gap_fill [{ day := "1970-01-01", count := 3 }] 0 31 (by simp) (by decide)

/-- C4: an authorized `POST /stats` always attempts exactly one insert of the
decoded record (the zero-valued record on decode failure, since the decode
error is ignored); 200 and the appended record on insert success, 500 and an
unchanged store when the store rejects the write. -/
theorem C4_add_stats (secret : String) (st : List StatsRaw) (o : StoreOracle)
    (now : Int) (hs : List (String × List String)) (b : Option StatsRaw)
    (hauth : requestToken { method := "POST", path := "/stats", headers := hs, body := b } = secret) :
    serve secret st o now { method := "POST", path := "/stats", headers := hs, body := b } =
      (if o.insertOk
        then ({ status := 200, body := Body.empty }, st ++ [b.getD zeroStatsRaw])
        else ({ status := 500, body := Body.empty }, st)) := by
  rw [serve_post_stats secret st o now hs b hauth]
  rfl

/-- C4 witness: authorized POST of a malformed body (decode failure) on the
empty store inserts the zero-valued record and returns 200. -/
theorem C4_witness :
    serve "s" [] allOk 0
        { method := "POST", path := "/stats",
          headers := [("X-Auth-Token", ["s"])], body := none } =
      (if allOk.insertOk
        then ({ status := 200, body := Body.empty }, [] ++ [Option.getD none zeroStatsRaw])
        else ({ status := 500, body := Body.empty }, [])) :=
  C4_add_stats "s" [] allOk 0 [("X-Auth-Token", ["s"])] none rfl

/-- C5: any request to `/stats`, `/stats/raw`, or `/stats/count_by_day` whose
`X-Auth-Token` does not match the secret (the absent header reads as the
empty token) is rejected with 401, an empty body, and an unchanged store:
the routed handler never runs. -/
theorem C5_unauthorized_rejected (secret : String) (st : List StatsRaw)
    (o : StoreOracle) (now : Int) (req : Request)
    (_hpath : req.path = "/stats" ∨ req.path = "/stats/raw" ∨ req.path = "/stats/count_by_day")
    (hauth : requestToken req ≠ secret) :
    serve secret st o now req = ({ status := 401, body := Body.empty }, st) :=
  serve_of_token_ne secret st o now req hauth

/-- C5 witness: a tokenless POST to `/stats` against secret `s` is rejected
and the store is untouched. -/
theorem C5_witness :
    serve "s" [zeroStatsRaw] allOk 0
        { method := "POST", path := "/stats", headers := [], body := some zeroStatsRaw } =
      ({ status := 401, body := Body.empty }, [zeroStatsRaw]) :=
  C5_unauthorized_rejected "s" [zeroStatsRaw] allOk 0
    { method := "POST", path := "/stats", headers := [], body := some zeroStatsRaw }
    (Or.inl rfl) (by decide)

/-- C6: for every record, an authorized successful `POST /stats` followed by
an authorized successful `GET /stats/raw` returns an array containing that
exact record. -/
theorem C6_post_then_raw (secret : String) (st : List StatsRaw) (o : StoreOracle)
    (now : Int) (r : StatsRaw) (hs1 hs2 : List (String × List String))
    (b2 : Option StatsRaw)
    (h1 : requestToken { method := "POST", path := "/stats", headers := hs1, body := some r } = secret)
    (h2 : requestToken { method := "GET", path := "/stats/raw", headers := hs2, body := b2 } = secret)
    (hins : o.insertOk = true) (hfind : o.findOk = true)
    (hdec : o.rawDecodeOk = true) (hmar : o.rawMarshalOk = true) :
    ∃ l : List StatsRaw,
      (serve secret st o now
          { method := "POST", path := "/stats", headers := hs1, body := some r }).fst.status = 200 ∧
      serve secret
          (serve secret st o now
            { method := "POST", path := "/stats", headers := hs1, body := some r }).snd
          o now { method := "GET", path := "/stats/raw", headers := hs2, body := b2 } =
        ({ status := 200, body := Body.rawList l }, l) ∧
      r ∈ l := by
  have hsnd : (serve secret st o now
      { method := "POST", path := "/stats", headers := hs1, body := some r }).snd = st ++ [r] := by
    rw [serve_post_stats secret st o now hs1 (some r) h1]
    unfold addStatsHandler
    rw [hins]
    rfl
  refine ⟨st ++ [r], ?_, ?_, by simp⟩
  · rw [serve_post_stats secret st o now hs1 (some r) h1]
    unfold addStatsHandler
    rw [hins]
    rfl
  · rw [hsnd, serve_stats_raw secret (st ++ [r]) o now hs2 b2 h2]
    unfold getStatsRawHandler
    rw [hfind, hdec, hmar]
    rfl

/-- C6 witness: posting a concrete record to the empty store and reading it
back. -/
theorem C6_witness :
    ∃ l : List StatsRaw,
      (serve "s" [] allOk 0
          { method := "POST", path := "/stats",
            headers := [("X-Auth-Token", ["s"])],
            body := some { chordName := "Cmaj7", rootNote := "C", chordExtension := "maj7",
                           answerDurationMilliSeconds := 1200, createdAt := 1704448800 } }).fst.status = 200 ∧
      serve "s"
          (serve "s" [] allOk 0
            { method := "POST", path := "/stats",
              headers := [("X-Auth-Token", ["s"])],
              body := some { chordName := "Cmaj7", rootNote := "C", chordExtension := "maj7",
                             answerDurationMilliSeconds := 1200, createdAt := 1704448800 } }).snd
          allOk 0
          { method := "GET", path := "/stats/raw",
            headers := [("X-Auth-Token", ["s"])], body := none } =
        ({ status := 200, body := Body.rawList l }, l) ∧
      { chordName := "Cmaj7", rootNote := "C", chordExtension := "maj7",
        answerDurationMilliSeconds := 1200, createdAt := 1704448800 } ∈ l :=
  C6_post_then_raw "s" [] allOk 0
    { chordName := "Cmaj7", rootNote := "C", chordExtension := "maj7",
      answerDurationMilliSeconds := 1200, createdAt := 1704448800 }
    [("X-Auth-Token", ["s"])] [("X-Auth-Token", ["s"])] none
    rfl rfl rfl rfl rfl rfl

/-- C7: on an authorized read of `/stats/raw` or `/stats/count_by_day`, the
response is 200 exactly when every external step (store query, cursor decode,
JSON marshal) succeeds, and any failure yields 500 with an empty body. -/
theorem C7_read_error_handling (secret : String) (st : List StatsRaw)
    (o : StoreOracle) (now : Int) (hs1 hs2 : List (String × List String))
    (b1 b2 : Option StatsRaw)
    (h1 : requestToken { method := "GET", path := "/stats/raw", headers := hs1, body := b1 } = secret)
    (h2 : requestToken { method := "GET", path := "/stats/count_by_day", headers := hs2, body := b2 } = secret) :
    ((serve secret st o now
        { method := "GET", path := "/stats/raw", headers := hs1, body := b1 }).fst.status = 200 ↔
      o.findOk = true ∧ o.rawDecodeOk = true ∧ o.rawMarshalOk = true) ∧
    (¬(o.findOk = true ∧ o.rawDecodeOk = true ∧ o.rawMarshalOk = true) →
      (serve secret st o now
        { method := "GET", path := "/stats/raw", headers := hs1, body := b1 }).fst =
        { status := 500, body := Body.empty }) ∧
    ((serve secret st o now
        { method := "GET", path := "/stats/count_by_day", headers := hs2, body := b2 }).fst.status = 200 ↔
      o.aggregateOk = true ∧ o.aggDecodeOk = true ∧ o.aggMarshalOk = true) ∧
    (¬(o.aggregateOk = true ∧ o.aggDecodeOk = true ∧ o.aggMarshalOk = true) →
      (serve secret st o now
        { method := "GET", path := "/stats/count_by_day", headers := hs2, body := b2 }).fst =
        { status := 500, body := Body.empty }) := by
  rw [serve_stats_raw secret st o now hs1 b1 h1,
    serve_count_by_day secret st o now hs2 b2 h2]
  unfold getStatsRawHandler getCountByDayHandler
  rcases o with ⟨i, f, rd, rm, ag, ad, am⟩
  cases f <;> cases rd <;> cases rm <;> cases ag <;> cases ad <;> cases am <;> simp

/-- C7 witness: with a failing marshal step on the raw read and everything
else succeeding, the raw read reports 500/empty and the aggregation read
reports 200. -/
theorem C7_witness :
    ((serve "s" [] { allOk with rawMarshalOk := false } 0
        { method := "GET", path := "/stats/raw",
          headers := [("X-Auth-Token", ["s"])], body := none }).fst.status = 200 ↔
      { allOk with rawMarshalOk := false }.findOk = true ∧
        { allOk with rawMarshalOk := false }.rawDecodeOk = true ∧
        { allOk with rawMarshalOk := false }.rawMarshalOk = true) ∧
    (¬({ allOk with rawMarshalOk := false }.findOk = true ∧
        { allOk with rawMarshalOk := false }.rawDecodeOk = true ∧
        { allOk with rawMarshalOk := false }.rawMarshalOk = true) →
      (serve "s" [] { allOk with rawMarshalOk := false } 0
        { method := "GET", path := "/stats/raw",
          headers := [("X-Auth-Token", ["s"])], body := none }).fst =
        { status := 500, body := Body.empty }) ∧
    ((serve "s" [] { allOk with rawMarshalOk := false } 0
        { method := "GET", path := "/stats/count_by_day",
          headers := [("X-Auth-Token", ["s"])], body := none }).fst.status = 200 ↔
      { allOk with rawMarshalOk := false }.aggregateOk = true ∧
        { allOk with rawMarshalOk := false }.aggDecodeOk = true ∧
        { allOk with rawMarshalOk := false }.aggMarshalOk = true) ∧
    (¬({ allOk with rawMarshalOk := false }.aggregateOk = true ∧
        { allOk with rawMarshalOk := false }.aggDecodeOk = true ∧
        { allOk with rawMarshalOk := false }.aggMarshalOk = true) →
      (serve "s" [] { allOk with rawMarshalOk := false } 0
        { method := "GET", path := "/stats/count_by_day",
          headers := [("X-Auth-Token", ["s"])], body := none }).fst =
        { status := 500, body := Body.empty }) :=
  C7_read_error_handling "s" [] { allOk with rawMarshalOk := false } 0
    [("X-Auth-Token", ["s"])] [("X-Auth-Token", ["s"])] none none rfl rfl

/-- C8 counterexample: an authorized POST with `answer_duration_millis = -1`
is persisted as-is — the stored record has a negative duration, so the
non-negativity invariant fails on the code. -/
theorem C8_counterexample :
    (serve "s" [] allOk 0
        { method := "POST", path := "/stats",
          headers := [("X-Auth-Token", ["s"])],
          body := some { chordName := "", rootNote := "", chordExtension := "",
                         answerDurationMilliSeconds := -1, createdAt := 0 } }).snd =
      [{ chordName := "", rootNote := "", chordExtension := "",
         answerDurationMilliSeconds := -1, createdAt := 0 }] ∧
    ({ chordName := "", rootNote := "", chordExtension := "",
       answerDurationMilliSeconds := -1, createdAt := 0 } : StatsRaw).answerDurationMilliSeconds < 0 := by
  constructor
  · rfl
  · decide

/-- C8 (amended): the ingestion handler persists the decoded record without
validating `answer_duration_ms` (negative decoded values are stored
unchanged); only the zero-valued record inserted on decode failure is
guaranteed a non-negative (zero) duration. -/
theorem C8_no_validation (secret : String) (st : List StatsRaw) (o : StoreOracle)
    (now : Int) (hs : List (String × List String)) (b : Option StatsRaw)
    (hauth : requestToken { method := "POST", path := "/stats", headers := hs, body := b } = secret)
    (hins : o.insertOk = true) :
    (serve secret st o now
        { method := "POST", path := "/stats", headers := hs, body := b }).snd =
      st ++ [b.getD zeroStatsRaw] ∧
    (b = none → 0 ≤ (b.getD zeroStatsRaw).answerDurationMilliSeconds) := by
  constructor
  · rw [serve_post_stats secret st o now hs b hauth]
    unfold addStatsHandler
    rw [hins]
    rfl
  · intro hb
    subst hb
    decide

/-- C8 witness: authorized POST of an undecodable body inserts the zero
record, whose duration is zero. -/
theorem C8_witness :
    (serve "s" [] allOk 0
        { method := "POST", path := "/stats",
          headers := [("X-Auth-Token", ["s"])], body := none }).snd =
      [] ++ [Option.getD none zeroStatsRaw] ∧
    ((none : Option StatsRaw) = none →
      0 ≤ (Option.getD none zeroStatsRaw).answerDurationMilliSeconds) :=
  C8_no_validation "s" [] allOk 0 [("X-Auth-Token", ["s"])] none rfl rfl

/-- C9: no request mutates or deletes existing records — the store after any
request is either unchanged or the old store with exactly one record
appended; a non-POST request never changes it; and the old store is always a
prefix of the new one. -/
theorem C9_store_immutability (secret : String) (st : List StatsRaw)
    (o : StoreOracle) (now : Int) (req : Request) :
    ((serve secret st o now req).snd = st ∨
      (serve secret st o now req).snd = st ++ [req.body.getD zeroStatsRaw]) ∧
    (req.method ≠ "POST" → (serve secret st o now req).snd = st) ∧
    ((serve secret st o now req).snd).take st.length = st := by
  have hd : (serve secret st o now req).snd = st ∨
      (serve secret st o now req).snd = st ++ [req.body.getD zeroStatsRaw] := by
    unfold serve addStatsHandler getStatsRawHandler getCountByDayHandler
    repeat' split
    all_goals simp
  refine ⟨hd, fun hm => serve_snd_of_not_post secret st o now req (fun hc => hm hc.1), ?_⟩
  rcases hd with h | h
  · rw [h, List.take_length]
  · rw [h, List.take_left]

/-- C9 witness: an authorized raw read against a one-record store. -/
theorem C9_witness :
    ((serve "s" [zeroStatsRaw] allOk 0
        { method := "GET", path := "/stats/raw",
          headers := [("X-Auth-Token", ["s"])], body := none }).snd = [zeroStatsRaw] ∨
      (serve "s" [zeroStatsRaw] allOk 0
        { method := "GET", path := "/stats/raw",
          headers := [("X-Auth-Token", ["s"])], body := none }).snd =
        [zeroStatsRaw] ++ [Option.getD none zeroStatsRaw]) ∧
    (({ method := "GET", path := "/stats/raw",
        headers := [("X-Auth-Token", ["s"])], body := none } : Request).method ≠ "POST" →
      (serve "s" [zeroStatsRaw] allOk 0
        { method := "GET", path := "/stats/raw",
          headers := [("X-Auth-Token", ["s"])], body := none }).snd = [zeroStatsRaw]) ∧
    ((serve "s" [zeroStatsRaw] allOk 0
        { method := "GET", path := "/stats/raw",
          headers := [("X-Auth-Token", ["s"])], body := none }).snd).take
        ([zeroStatsRaw] : List StatsRaw).length = [zeroStatsRaw] :=
  C9_store_immutability "s" [zeroStatsRaw] allOk 0
    { method := "GET", path := "/stats/raw",
      headers := [("X-Auth-Token", ["s"])], body := none }

/-- C10: the gate rejects with 401 exactly when the first `X-Auth-Token`
value (the empty string when the header is absent) differs from the secret;
values after the first are ignored; and with an empty configured secret a
request without the header is not rejected. -/
theorem C10_authorize_gate (secret : String) (st : List StatsRaw)
    (o : StoreOracle) (now : Int) (m p : String)
    (hs : List (String × List String)) (b : Option StatsRaw) :
    ((serve secret st o now { method := m, path := p, headers := hs, body := b }).fst.status = 401 ↔
      requestToken { method := m, path := p, headers := hs, body := b } ≠ secret) ∧
    (∀ (t : String) (rest : List String) (hs2 : List (String × List String)) (b2 : Option StatsRaw),
      requestToken
        { method := m, path := p, headers := ("X-Auth-Token", t :: rest) :: hs2,
          body := b2 } = t) ∧
    (headerGet hs "X-Auth-Token" = [] →
      requestToken { method := m, path := p, headers := hs, body := b } = "") ∧
    (secret = "" → headerGet hs "X-Auth-Token" = [] →
      (serve secret st o now { method := m, path := p, headers := hs, body := b }).fst.status ≠ 401) := by
  have htok : ∀ (hx : headerGet hs "X-Auth-Token" = []),
      requestToken { method := m, path := p, headers := hs, body := b } = "" := by
    intro hx
    unfold requestToken
    rw [hx]
  refine ⟨⟨?_, ?_⟩, ?_, htok, ?_⟩
  · intro h401 heq
    exact serve_status_ne_401_of_token_eq secret st o now _ heq h401
  · intro hne
    rw [serve_of_token_ne secret st o now _ hne]
  · intro t rest hs2 b2
    rfl
  · intro hsec hx
    exact serve_status_ne_401_of_token_eq secret st o now _ ((htok hx).trans hsec.symm)

/-- C10 witness: with the empty secret and no auth header, a ping is not
rejected; a second header value is ignored. -/
theorem C10_witness :
    ((serve "" [] allOk 0
        { method := "GET", path := "/ping", headers := [], body := none }).fst.status = 401 ↔
      requestToken { method := "GET", path := "/ping", headers := [], body := none } ≠ "") ∧
    (∀ (t : String) (rest : List String) (hs2 : List (String × List String)) (b2 : Option StatsRaw),
      requestToken
        { method := "GET", path := "/ping",
          headers := ("X-Auth-Token", t :: rest) :: hs2, body := b2 } = t) ∧
    (headerGet [] "X-Auth-Token" = [] →
      requestToken { method := "GET", path := "/ping", headers := [], body := none } = "") ∧
    ("" = "" → headerGet [] "X-Auth-Token" = [] →
      (serve "" [] allOk 0
        { method := "GET", path := "/ping", headers := [], body := none }).fst.status ≠ 401) :=
  C10_authorize_gate "" [] allOk 0 "GET" "/ping" [] none
